import Mathlib

/-!
Verification development for the PyKodi repository (src/pykodi/kodi.py).

The file shallowly embeds the module: JSON values, the remote JSON-RPC
oracle, the connection classes (KodiConnection, KodiHTTPConnection,
KodiWSConnection), the factory get_kodi_connection, and the high level
client class Kodi.  Mutation is modelled by explicit state passing and
the network by an oracle; every awaited remote invocation is recorded in
an effect trace.
-/

namespace PyKodi

/-- JSON values, as delivered and consumed by the JSON-RPC layer. -/
inductive JValue where
  | null
  | bool (b : Bool)
  | num (n : Int)
  | str (s : String)
  | arr (xs : List JValue)
  | obj (fields : List (String × JValue))

mutual

/-- Python structural equality on JSON values (the == operator). -/
def JValue.beq : JValue → JValue → Bool
  | .null, .null => true
  | .bool a, .bool b => a == b
  | .num a, .num b => a == b
  | .str a, .str b => a == b
  | .arr a, .arr b => beqArr a b
  | .obj a, .obj b => beqObj a b
  | _, _ => false

def beqArr : List JValue → List JValue → Bool
  | [], [] => true
  | x :: xs, y :: ys => JValue.beq x y && beqArr xs ys
  | _, _ => false

def beqObj : List (String × JValue) → List (String × JValue) → Bool
  | [], [] => true
  | (k1, v1) :: xs, (k2, v2) :: ys => k1 == k2 && JValue.beq v1 v2 && beqObj xs ys
  | _, _ => false

end

/-- Python truthiness of a JSON value (used by the if-players guards). -/
def JValue.truthy : JValue → Bool
  | .null => false
  | .bool b => b
  | .num n => n != 0
  | .str s => !s.isEmpty
  | .arr xs => !xs.isEmpty
  | .obj fs => !fs.isEmpty

/-- Python exceptions and the two domain errors of the module. -/
inductive PyErr where
  | invalidAuthError
  | cannotConnectError
  | transportError (msg : String)
  | attributeError (attr : String)
  | keyError (key : String)
  | indexError
  | typeError
deriving DecidableEq

/-- Subscript v[i] with an integer index, as Python evaluates it. -/
def pyGetItemNat (v : JValue) (i : Nat) : Except PyErr JValue :=
  match v with
  | .arr xs =>
    match xs[i]? with
    | some x => .ok x
    | none => .error .indexError
  | .obj _ => .error (.keyError "0")
  | .str s =>
    match s.data[i]? with
    | some ch => .ok (.str (String.mk [ch]))
    | none => .error .indexError
  | _ => .error .typeError

/-- Subscript v[key] with a string key, as Python evaluates it. -/
def pyGetItemStr (v : JValue) (key : String) : Except PyErr JValue :=
  match v with
  | .obj fs =>
    match fs.lookup key with
    | some x => .ok x
    | none => .error (.keyError key)
  | _ => .error .typeError

/-- needle is an initial segment of hay. -/
def charsLeadMatch : List Char → List Char → Bool
  | [], _ => true
  | _ :: _, [] => false
  | a :: as, b :: bs => a == b && charsLeadMatch as bs

/-- needle occurs contiguously inside hay. -/
def charsContain (needle : List Char) : List Char → Bool
  | [] => charsLeadMatch needle []
  | b :: bs => charsLeadMatch needle (b :: bs) || charsContain needle bs

/-- The Python expression needle in hay on strings (substring test). -/
def strContains (needle hay : String) : Bool :=
  charsContain needle.data hay.data

/-! ## Sessions, effects and connection state

A session is either the externally supplied aiohttp session or the one the
connection created for itself in KodiConnection.__init__. -/

/-- Identity of the aiohttp session held by a connection. -/
inductive SessionRef where
  | external
  | created
deriving DecidableEq

/-- Observable side effects of the lifecycle operations. -/
inductive Effect where
  | closeSession (s : SessionRef)
  | closeWS
  | wsHandshake
deriving DecidableEq, BEq

/-- Result of one stateful lifecycle step: new state, effects performed
before any exception, and the exception if one was raised. -/
structure StepResult (σ : Type) where
  state : σ
  effects : List Effect
  err : Option PyErr
deriving DecidableEq

/-- str(x) for an optional string, as a Python f-string renders it. -/
def pyStrOpt : Option String → String
  | none => "None"
  | some s => s

/-- State of the KodiConnection base class. -/
structure BaseState where
  session : Option SessionRef
  created_session : Bool
  timeout : Nat
  image_url : String
deriving DecidableEq

/-- KodiConnection.__init__. -/
def KodiConnection.init (host : String) (port : Nat) (username password : Option String)
    (ssl : Bool) (timeout : Nat) (session : Option Unit) : BaseState :=
  let sessPair : Option SessionRef × Bool :=
    match session with
    | none => (some .created, true)
    | some _ => (some .external, false)
  let image_auth_string :=
    match username with
    | some u => u ++ ":" ++ pyStrOpt password ++ "@"
    | none => ""
  let http_protocol := if ssl then "https" else "http"
  { session := sessPair.1
    created_session := sessPair.2
    timeout := timeout
    image_url := http_protocol ++ "://" ++ image_auth_string ++ host ++ ":" ++ toString port ++ "/image" }

/-- KodiConnection.close: closes the session only if this connection created
it and the reference is still set, then clears both fields. -/
def KodiConnection.close (b : BaseState) : BaseState × List Effect :=
  match b.session with
  | some sref =>
    if b.created_session then
      ({ b with session := none, created_session := false }, [.closeSession sref])
    else
      (b, [])
  | none => (b, [])

/-- State of a KodiHTTPConnection: the base state plus the jsonrpc_async
server handle (identified by its endpoint URL), or None after close. -/
structure HTTPState where
  base : BaseState
  http_server : Option String
deriving DecidableEq

/-- KodiHTTPConnection.__init__. -/
def KodiHTTPConnection.init (host : String) (port : Nat) (username password : Option String)
    (ssl : Bool) (timeout : Nat) (session : Option Unit) : HTTPState :=
  let http_protocol := if ssl then "https" else "http"
  { base := KodiConnection.init host port username password ssl timeout session
    http_server := some (http_protocol ++ "://" ++ host ++ ":" ++ toString port ++ "/jsonrpc") }

/-- KodiHTTPConnection.connected: always True. -/
def KodiHTTPConnection.connected (_ : HTTPState) : Bool := true

/-- KodiHTTPConnection.close: drop the server handle, then the base close. -/
def KodiHTTPConnection.close (s : HTTPState) : StepResult HTTPState :=
  let s1 := { s with http_server := none }
  let bc := KodiConnection.close s1.base
  { state := { s1 with base := bc.1 }, effects := bc.2, err := none }

/-- The jsonrpc_websocket server object: its endpoint URL and its live
connected flag.  A freshly constructed transport reports not connected
(the handshake has not been issued yet). -/
structure WSServer where
  url : String
  connected : Bool
deriving DecidableEq

/-- State of a KodiWSConnection. -/
structure WSState where
  base : BaseState
  ws_server : Option WSServer
deriving DecidableEq

/-- KodiWSConnection.__init__. -/
def KodiWSConnection.init (host : String) (port ws_port : Nat) (username password : Option String)
    (ssl : Bool) (timeout : Nat) (session : Option Unit) : WSState :=
  let ws_protocol := if ssl then "wss" else "ws"
  { base := KodiConnection.init host port username password ssl timeout session
    ws_server := some { url := ws_protocol ++ "://" ++ host ++ ":" ++ toString ws_port ++ "/jsonrpc"
                        connected := false } }

/-- KodiWSConnection.connected: the Python expression
self._ws_server and self._ws_server.connected, which is falsy when the
handle is None. -/
def KodiWSConnection.connected (s : WSState) : Bool :=
  match s.ws_server with
  | none => false
  | some srv => srv.connected

/-- Outcome of the transport level websocket handshake attempt. -/
inductive HandshakeOutcome where
  | success
  | failure (msg : String)

/-- KodiWSConnection.connect: no-op when already connected, otherwise
await self._ws_server.ws_connect(), turning a TransportError into
CannotConnectError.  With a cleared handle the attribute access on None
raises AttributeError (not caught by the TransportError handler). -/
def KodiWSConnection.connect (o : HandshakeOutcome) (s : WSState) : StepResult WSState :=
  if KodiWSConnection.connected s then
    { state := s, effects := [], err := none }
  else
    match s.ws_server with
    | none => { state := s, effects := [], err := some (.attributeError "ws_connect") }
    | some srv =>
      match o with
      | .success =>
        { state := { s with ws_server := some { srv with connected := true } }
          effects := [.wsHandshake], err := none }
      | .failure _ =>
        { state := s, effects := [.wsHandshake], err := some .cannotConnectError }

/-- KodiWSConnection.close: awaits self._ws_server.close() first; when the
handle was already cleared by a previous close this evaluates
None.close() and raises AttributeError before any effect. -/
def KodiWSConnection.close (s : WSState) : StepResult WSState :=
  match s.ws_server with
  | none => { state := s, effects := [], err := some (.attributeError "close") }
  | some _ =>
    let s1 := { s with ws_server := none }
    let bc := KodiConnection.close s1.base
    { state := { s1 with base := bc.1 }, effects := .closeWS :: bc.2, err := none }

/-- A constructed connection: the HTTP variant or the WebSocket variant. -/
inductive KodiConn where
  | http (s : HTTPState)
  | ws (s : WSState)
deriving DecidableEq

/-- Whether the connection is the WebSocket variant. -/
def KodiConn.isWS : KodiConn → Bool
  | .http _ => false
  | .ws _ => true

/-- The server property: the current dispatch handle, or None after close. -/
def KodiConn.server : KodiConn → Option String
  | .http s => s.http_server
  | .ws s => s.ws_server.map WSServer.url

/-- The created_session flag of the underlying base state. -/
def KodiConn.created : KodiConn → Bool
  | .http s => s.base.created_session
  | .ws s => s.base.created_session

/-- close() on either variant. -/
def KodiConn.close : KodiConn → StepResult KodiConn
  | .http s =>
    let r := KodiHTTPConnection.close s
    { state := .http r.state, effects := r.effects, err := r.err }
  | .ws s =>
    let r := KodiWSConnection.close s
    { state := .ws r.state, effects := r.effects, err := r.err }

/-- get_kodi_connection: the factory, selecting the variant solely on
whether a websocket port was supplied. -/
def get_kodi_connection (host : String) (port : Nat) (ws_port : Option Nat)
    (username password : Option String) (ssl : Bool) (timeout : Nat)
    (session : Option Unit) : KodiConn :=
  match ws_port with
  | none => .http (KodiHTTPConnection.init host port username password ssl timeout session)
  | some wp => .ws (KodiWSConnection.init host port wp username password ssl timeout session)

/-- Repeated close() calls: apply close n times, collecting all effects.
A call that raises contributes the effects it performed before raising. -/
def iterClose : Nat → KodiConn → KodiConn × List Effect
  | 0, c => (c, [])
  | n + 1, c =>
    let r := KodiConn.close c
    let rest := iterClose n r.state
    (rest.1, r.effects ++ rest.2)

/-- How many times the given session was closed in an effect trace. -/
def sessionCloses (sref : SessionRef) (effs : List Effect) : Nat :=
  (effs.filter (fun e => e == Effect.closeSession sref)).length

/-! ## urllib: scheme extraction and quote_plus -/

/-- The characters urllib.parse allows inside a URL scheme. -/
def schemeChar (c : Char) : Bool :=
  c.isAlpha || c.isDigit || c == '+' || c == '-' || c == '.'

/-- The scheme produced by urllib.parse.urlparse: the lowercased text
before the first colon, provided it is nonempty, starts with an ASCII
letter and uses only scheme characters; otherwise the empty string. -/
def urlScheme (url : String) : String :=
  match url.data.findIdx? (fun c => c == ':') with
  | none => ""
  | some i =>
    if i != 0 && (url.data.take i).all schemeChar &&
        (match url.data.head? with
         | some c0 => c0.isAlpha
         | none => false) then
      String.mk ((url.data.take i).map Char.toLower)
    else
      ""

/-- The UTF-8 encoding of one character, as a list of byte values. -/
def utf8Bytes (c : Char) : List Nat :=
  let n := c.toNat
  if n < 128 then [n]
  else if n < 2048 then [192 + n / 64, 128 + n % 64]
  else if n < 65536 then [224 + n / 4096, 128 + (n / 64) % 64, 128 + n % 64]
  else [240 + n / 262144, 128 + (n / 4096) % 64, 128 + (n / 64) % 64, 128 + n % 64]

/-- The bytes urllib.parse.quote never escapes: ASCII letters, digits,
and the characters _ . - ~ (quote_plus passes safe as the empty string). -/
def alwaysSafeByte (b : Nat) : Bool :=
  (65 ≤ b && b ≤ 90) || (97 ≤ b && b ≤ 122) || (48 ≤ b && b ≤ 57) ||
    b == 95 || b == 46 || b == 45 || b == 126

/-- Uppercase hexadecimal digit. -/
def hexDigit (n : Nat) : Char :=
  if n < 10 then Char.ofNat (48 + n) else Char.ofNat (55 + n)

/-- quote_plus on one byte: space becomes +, safe bytes pass through,
every other byte becomes a percent escape. -/
def quoteByteChars (b : Nat) : List Char :=
  if b == 32 then ['+']
  else if alwaysSafeByte b then [Char.ofNat b]
  else ['%', hexDigit (b / 16), hexDigit (b % 16)]

/-- urllib.parse.quote_plus with its default arguments, applied to the
UTF-8 encoding of the string. -/
def quote_plus (s : String) : String :=
  String.mk ((((s.data.map utf8Bytes).flatten).map quoteByteChars).flatten)

/-- KodiConnection.thumbnail_url: None maps to None, references with the
sentinel scheme image are rewritten through the image endpoint, any other
scheme falls off the function and yields None. -/
def KodiConnection.thumbnail_url (b : BaseState) : Option String → Option String
  | none => none
  | some thumbnail =>
    if urlScheme thumbnail == "image" then
      some (b.image_url ++ "/" ++ quote_plus thumbnail)
    else
      none

/-- thumbnail_url on either connection variant (inherited from the base). -/
def KodiConn.thumbnail_url : KodiConn → Option String → Option String
  | .http s, t => KodiConnection.thumbnail_url s.base t
  | .ws s, t => KodiConnection.thumbnail_url s.base t

/-! ## media_seek arithmetic

Python float arithmetic is modelled by exact rational arithmetic; every
constant appearing in the claims (3725.25, 0.25, 250.0) is exactly
representable in binary floating point, so the model agrees with the code
on them. -/

/-- Floor of a rational (denominators are positive in ℚ). -/
def ratFloor (q : ℚ) : Int :=
  q.num.fdiv (q.den : Int)

/-- Python int(x): truncation toward zero. -/
def pyInt (q : ℚ) : Int :=
  if 0 ≤ q.num then ratFloor q else -(ratFloor (-q))

/-- Python x % y on floats (sign follows the divisor; used here only with
positive divisors): x - y * floor(x / y). -/
def pyMod (x y : ℚ) : ℚ :=
  x - y * (ratFloor (x / y) : ℚ)

/-- The structured time object media_seek builds from a fractional
position in seconds, with the dict insertion order of the source. -/
def media_seek_time (position : ℚ) : JValue :=
  let ms := pyInt (pyMod position 1 * 1000)
  let p1 := pyInt position
  let seconds := Int.emod p1 60
  let p2 : ℚ := (p1 : ℚ) / 60
  let minutes := pyInt (pyMod p2 60)
  let p3 : ℚ := p2 / 60
  let hours := pyInt p3
  .obj [("milliseconds", .num ms), ("seconds", .num seconds),
        ("minutes", .num minutes), ("hours", .num hours)]

/-! ## The high level client Kodi

A Kodi object stores the dispatch handle it read from connection.server
once in __init__ (self._server) and keeps an alias to the connection for
thumbnail_url (self._conn).  The network is an oracle mapping each
awaited remote invocation to a parsed result or to the message of a
TransportError; every awaited invocation is recorded in a trace. -/

/-- One awaited remote method invocation: the dispatch handle it went
through, the dotted method path and its positional and keyword params. -/
structure RemoteCall where
  target : String
  method : String
  params : List JValue
  kwargs : List (String × JValue)

/-- The remote side: what each awaited invocation returns, or the
rendered message of the TransportError it raises. -/
structure Remote where
  call : RemoteCall → Except String JValue

/-- The state a Kodi object captures at construction. -/
structure KodiClient where
  server : Option String

/-- Kodi.__init__: self._server = connection.server, read once.  The
self._conn alias is modelled by passing the current connection state to
thumbnail_url explicitly. -/
def Kodi.init (connection : KodiConn) : KodiClient :=
  { server := connection.server }

/-- await self._server.Path.Method(params, **kwargs): attribute access on
a cleared handle raises AttributeError; a TransportError from the
transport propagates unchanged; otherwise the invocation is recorded and
its result returned. -/
def invoke (k : KodiClient) (r : Remote) (method : String) (params : List JValue)
    (kwargs : List (String × JValue)) : Except PyErr (JValue × List RemoteCall) :=
  match k.server with
  | none => .error (.attributeError method)
  | some h =>
    let c : RemoteCall := { target := h, method := method, params := params, kwargs := kwargs }
    match r.call c with
    | .ok v => .ok (v, [c])
    | .error m => .error (.transportError m)

/-- An invocation whose Python result is discarded (the method returns
None); only the trace is kept. -/
def command (k : KodiClient) (r : Remote) (method : String) (params : List JValue) :
    Except PyErr (List RemoteCall) := do
  let (_, t) ← invoke k r method params []
  return t

/-- Kodi.ping: compares the reply with the literal "pong"; a
TransportError whose text contains "401" becomes InvalidAuthError, any
other TransportError becomes CannotConnectError. -/
def Kodi.ping (k : KodiClient) (r : Remote) : Except PyErr Bool :=
  match k.server with
  | none => .error (.attributeError "JSONRPC")
  | some h =>
    match r.call { target := h, method := "JSONRPC.Ping", params := [], kwargs := [] } with
    | .ok response => .ok (JValue.beq response (.str "pong"))
    | .error m =>
      if strContains "401" m then .error .invalidAuthError
      else .error .cannotConnectError

/-- Kodi.get_application_properties. -/
def Kodi.get_application_properties (k : KodiClient) (r : Remote) (properties : JValue) :
    Except PyErr (JValue × List RemoteCall) :=
  invoke k r "Application.GetProperties" [properties] []

/-- Kodi.get_player_properties. -/
def Kodi.get_player_properties (k : KodiClient) (r : Remote) (player properties : JValue) :
    Except PyErr (JValue × List RemoteCall) := do
  let pid ← pyGetItemStr player "playerid"
  invoke k r "Player.GetProperties" [pid, properties] []

/-- Kodi.get_playing_item_properties. -/
def Kodi.get_playing_item_properties (k : KodiClient) (r : Remote) (player properties : JValue) :
    Except PyErr (JValue × List RemoteCall) := do
  let pid ← pyGetItemStr player "playerid"
  let (v, t) ← invoke k r "Player.GetItem" [pid, properties] []
  let item ← pyGetItemStr v "item"
  return (item, t)

/-- Kodi.volume_up. -/
def Kodi.volume_up (k : KodiClient) (r : Remote) : Except PyErr (List RemoteCall) :=
  command k r "Input.ExecuteAction" [.str "volumeup"]

/-- Kodi.volume_down. -/
def Kodi.volume_down (k : KodiClient) (r : Remote) : Except PyErr (List RemoteCall) :=
  command k r "Input.ExecuteAction" [.str "volumedown"]

/-- Kodi.set_volume_level. -/
def Kodi.set_volume_level (k : KodiClient) (r : Remote) (volume : Int) :
    Except PyErr (List RemoteCall) :=
  command k r "Application.SetVolume" [.num volume]

/-- Kodi.mute. -/
def Kodi.mute (k : KodiClient) (r : Remote) (m : Bool) : Except PyErr (List RemoteCall) :=
  command k r "Application.SetMute" [.bool m]

/-- Kodi.get_players. -/
def Kodi.get_players (k : KodiClient) (r : Remote) : Except PyErr (JValue × List RemoteCall) :=
  invoke k r "Player.GetActivePlayers" [] []

/-- Kodi._set_play_state. -/
def Kodi._set_play_state (k : KodiClient) (r : Remote) (state : JValue) :
    Except PyErr (List RemoteCall) := do
  let (players, t) ← Kodi.get_players k r
  if players.truthy then
    let p0 ← pyGetItemNat players 0
    let pid ← pyGetItemStr p0 "playerid"
    let (_, t2) ← invoke k r "Player.PlayPause" [pid, state] []
    return t ++ t2
  else
    return t

/-- Kodi.play_pause. -/
def Kodi.play_pause (k : KodiClient) (r : Remote) : Except PyErr (List RemoteCall) :=
  Kodi._set_play_state k r (.str "toggle")

/-- Kodi.play. -/
def Kodi.play (k : KodiClient) (r : Remote) : Except PyErr (List RemoteCall) :=
  Kodi._set_play_state k r (.bool true)

/-- Kodi.pause. -/
def Kodi.pause (k : KodiClient) (r : Remote) : Except PyErr (List RemoteCall) :=
  Kodi._set_play_state k r (.bool false)

/-- Kodi.stop. -/
def Kodi.stop (k : KodiClient) (r : Remote) : Except PyErr (List RemoteCall) := do
  let (players, t) ← Kodi.get_players k r
  if players.truthy then
    let p0 ← pyGetItemNat players 0
    let pid ← pyGetItemStr p0 "playerid"
    let (_, t2) ← invoke k r "Player.Stop" [pid] []
    return t ++ t2
  else
    return t

/-- Kodi._goto: for direction previous, first seek to position 0. -/
def Kodi._goto (k : KodiClient) (r : Remote) (direction : String) :
    Except PyErr (List RemoteCall) := do
  let (players, t) ← Kodi.get_players k r
  if players.truthy then
    let p0 ← pyGetItemNat players 0
    let pid ← pyGetItemStr p0 "playerid"
    if direction == "previous" then
      let (_, ts) ← invoke k r "Player.Seek" [pid, .num 0] []
      let (_, tg) ← invoke k r "Player.GoTo" [pid, .str direction] []
      return t ++ ts ++ tg
    else
      let (_, tg) ← invoke k r "Player.GoTo" [pid, .str direction] []
      return t ++ tg
  else
    return t

/-- Kodi.next_track. -/
def Kodi.next_track (k : KodiClient) (r : Remote) : Except PyErr (List RemoteCall) :=
  Kodi._goto k r "next"

/-- Kodi.previous_track. -/
def Kodi.previous_track (k : KodiClient) (r : Remote) : Except PyErr (List RemoteCall) :=
  Kodi._goto k r "previous"

/-- Kodi.media_seek: the time object is computed unconditionally, the
Player.Seek invocation happens only when there is an active player. -/
def Kodi.media_seek (k : KodiClient) (r : Remote) (position : ℚ) :
    Except PyErr (List RemoteCall) := do
  let (players, t) ← Kodi.get_players k r
  let time := media_seek_time position
  if players.truthy then
    let p0 ← pyGetItemNat players 0
    let pid ← pyGetItemStr p0 "playerid"
    let (_, t2) ← invoke k r "Player.Seek" [pid, time] []
    return t ++ t2
  else
    return t

/-- Kodi._play_item. -/
def Kodi._play_item (k : KodiClient) (r : Remote) (item : JValue) :
    Except PyErr (List RemoteCall) :=
  command k r "Player.Open" [.obj [("item", item)]]

/-- Kodi.play_channel. -/
def Kodi.play_channel (k : KodiClient) (r : Remote) (channel_id : Int) :
    Except PyErr (List RemoteCall) :=
  Kodi._play_item k r (.obj [("channelid", .num channel_id)])

/-- Kodi.play_playlist. -/
def Kodi.play_playlist (k : KodiClient) (r : Remote) (playlist_id : Int) :
    Except PyErr (List RemoteCall) :=
  Kodi._play_item k r (.obj [("playlistid", .num playlist_id)])

/-- Kodi.play_directory. -/
def Kodi.play_directory (k : KodiClient) (r : Remote) (directory : String) :
    Except PyErr (List RemoteCall) :=
  Kodi._play_item k r (.obj [("directory", .str directory)])

/-- Kodi.play_file. -/
def Kodi.play_file (k : KodiClient) (r : Remote) (file : String) :
    Except PyErr (List RemoteCall) :=
  Kodi._play_item k r (.obj [("file", .str file)])

/-- Kodi.set_shuffle. -/
def Kodi.set_shuffle (k : KodiClient) (r : Remote) (shuffle : Bool) :
    Except PyErr (List RemoteCall) := do
  let (players, t) ← Kodi.get_players k r
  if players.truthy then
    let p0 ← pyGetItemNat players 0
    let pid ← pyGetItemStr p0 "playerid"
    let (_, t2) ← invoke k r "Player.SetShuffle"
        [.obj [("playerid", pid), ("shuffle", .bool shuffle)]] []
    return t ++ t2
  else
    return t

/-- Kodi.call_method: an arbitrary method name with keyword params. -/
def Kodi.call_method (k : KodiClient) (r : Remote) (method : String)
    (kwargs : List (String × JValue)) : Except PyErr (JValue × List RemoteCall) :=
  invoke k r method [] kwargs

/-- Kodi._add_item_to_playlist: the source reads
self._server.Playlist.Add(params) without awaiting it, so the attribute
chain is evaluated (AttributeError on a cleared handle) but the coroutine
is never awaited and no request is ever sent. -/
def Kodi._add_item_to_playlist (k : KodiClient) (r : Remote) (item : JValue) :
    Except PyErr (List RemoteCall) :=
  match k.server with
  | none => .error (.attributeError "Playlist")
  | some _ => .ok []

/-- Kodi.add_song_to_playlist. -/
def Kodi.add_song_to_playlist (k : KodiClient) (r : Remote) (song_id : Int) :
    Except PyErr (List RemoteCall) :=
  Kodi._add_item_to_playlist k r (.obj [("songid", .num song_id)])

/-- Kodi.add_album_to_playlist. -/
def Kodi.add_album_to_playlist (k : KodiClient) (r : Remote) (album_id : Int) :
    Except PyErr (List RemoteCall) :=
  Kodi._add_item_to_playlist k r (.obj [("albumid", .num album_id)])

/-- Kodi.clear_playlist. -/
def Kodi.clear_playlist (k : KodiClient) (r : Remote) : Except PyErr (List RemoteCall) :=
  command k r "Playlist.Clear" [.obj [("playlistid", .num 0)]]

/-- Kodi.get_artists. -/
def Kodi.get_artists (k : KodiClient) (r : Remote) : Except PyErr (JValue × List RemoteCall) :=
  invoke k r "AudioLibrary.GetArtists" [] []

/-- Kodi.get_albums. -/
def Kodi.get_albums (k : KodiClient) (r : Remote) (artist_id : Option Int) :
    Except PyErr (JValue × List RemoteCall) :=
  match artist_id with
  | none => invoke k r "AudioLibrary.GetAlbums" [] []
  | some aid =>
    invoke k r "AudioLibrary.GetAlbums" [.obj [("filter", .obj [("artistid", .num aid)])]] []

/-- Kodi.get_songs. -/
def Kodi.get_songs (k : KodiClient) (r : Remote) (artist_id : Option Int) :
    Except PyErr (JValue × List RemoteCall) :=
  match artist_id with
  | none => invoke k r "AudioLibrary.GetSongs" [] []
  | some aid =>
    invoke k r "AudioLibrary.GetSongs" [.obj [("filter", .obj [("artistid", .num aid)])]] []

/-- Kodi.send_notification. -/
def Kodi.send_notification (k : KodiClient) (r : Remote) (title message icon : String)
    (displaytime : Int) : Except PyErr (List RemoteCall) :=
  command k r "GUI.ShowNotification" [.str title, .str message, .str icon, .num displaytime]

/-- Kodi.thumbnail_url: delegated on every call to the live connection
(self._conn), whose current state is the first argument. -/
def Kodi.thumbnail_url (conn : KodiConn) (thumbnail : Option String) : Option String :=
  KodiConn.thumbnail_url conn thumbnail

/-- Remote methods of this module that change state on the device, as
opposed to the pure queries (the Get methods and Ping). -/
def mutatingMethods : List String :=
  ["Input.ExecuteAction", "Application.SetVolume", "Application.SetMute",
   "Player.PlayPause", "Player.Stop", "Player.Seek", "Player.GoTo",
   "Player.SetShuffle", "Player.Open", "Playlist.Add", "Playlist.Clear",
   "GUI.ShowNotification"]

/-- Whether a remote call mutates state on the device. -/
def RemoteCall.mutating (c : RemoteCall) : Bool :=
  mutatingMethods.contains c.method

/-- Whether a remote call mutates a player (a state changing call of the
Player namespace). -/
def RemoteCall.playerMutating (c : RemoteCall) : Bool :=
  ["Player.PlayPause", "Player.Stop", "Player.Seek", "Player.GoTo",
   "Player.SetShuffle", "Player.Open"].contains c.method

/-- Abbreviation for a remote call with positional params only. -/
def mkCall (target method : String) (params : List JValue) : RemoteCall :=
  { target := target, method := method, params := params, kwargs := [] }

/-- A remote on which every invocation succeeds and returns an empty
list: in particular the active player list is empty. -/
def emptyPlayersRemote : Remote :=
  { call := fun _ => .ok (.arr []) }

/-- A remote on which every invocation succeeds and returns null. -/
def nullRemote : Remote :=
  { call := fun _ => .ok .null }

/-- A remote that replies pong to everything. -/
def pongRemote : Remote :=
  { call := fun _ => .ok (.str "pong") }

/-- A remote on which every invocation raises a TransportError whose
message carries an authorization rejection. -/
def deniedRemote : Remote :=
  { call := fun _ => .error "HTTP/1.1 401 Unauthorized" }

/-- A remote on which every invocation raises a TransportError with an
unrelated message. -/
def downRemote : Remote :=
  { call := fun _ => .error "Cannot connect to host" }

/-- A remote with one active player (playerid 1); every other invocation
returns null. -/
def seekDemoRemote : Remote :=
  { call := fun c =>
      if c.method == "Player.GetActivePlayers" then .ok (.arr [.obj [("playerid", .num 1)]])
      else .ok .null }

/-- A demonstration HTTP connection. -/
def demoConn : KodiConn :=
  get_kodi_connection "host" 8080 none none none false 5 none

/-- A demonstration WebSocket connection. -/
def demoWSConn : KodiConn :=
  get_kodi_connection "host" 8080 (some 9090) none none false 5 none

/-- The dispatch handle of demoConn. -/
def demoURL : String := "http://host:8080/jsonrpc"

/-- A client over demoConn. -/
def demoClient : KodiClient := Kodi.init demoConn

/-! ## Helper lemmas -/

/-- Every Unicode scalar value is below 0x110000. -/
theorem char_toNat_lt (ch : Char) : ch.toNat < 1114112 := by
  have h := ch.valid
  rcases h with h | ⟨_, h2⟩
  · have : ch.val.toNat < 55296 := h
    show ch.val.toNat < 1114112
    omega
  · exact h2

/-- UTF-8 encoding produces byte values. -/
theorem utf8Bytes_lt_256 (ch : Char) : ∀ b ∈ utf8Bytes ch, b < 256 := by
  have h := char_toNat_lt ch
  intro b hb
  simp only [utf8Bytes] at hb
  split at hb
  · fin_cases hb <;> omega
  · split at hb
    · fin_cases hb <;> omega
    · split at hb
      · fin_cases hb <;> omega
      · fin_cases hb <;> omega

set_option maxRecDepth 10000 in
/-- Characters emitted by quote_plus for a single byte never include a
reserved URL character: only alphanumerics, the always safe marks, the
escape character and the plus sign occur. -/
theorem quoteByteChars_safe :
    ∀ b < 256, ∀ c ∈ quoteByteChars b, (c.isAlphanum ∨ c ∈ ['_', '.', '-', '~', '%', '+']) := by
  decide

/-- quote_plus escapes every reserved URL character: its output alphabet
is alphanumerics plus the characters _ . - ~ % +; in particular neither
/ nor : survives unescaped. -/
theorem quote_plus_safe (t : String) :
    ∀ c ∈ (quote_plus t).data, (c.isAlphanum ∨ c ∈ ['_', '.', '-', '~', '%', '+']) := by
  intro c hc
  have hc2 : c ∈ (((t.data.map utf8Bytes).flatten).map quoteByteChars).flatten := hc
  obtain ⟨cs, hcs, hcin⟩ := List.mem_flatten.1 hc2
  obtain ⟨b, hb, rfl⟩ := List.mem_map.1 hcs
  obtain ⟨bs, hbs, hbin⟩ := List.mem_flatten.1 hb
  obtain ⟨ch, _, rfl⟩ := List.mem_map.1 hbs
  exact quoteByteChars_safe b (utf8Bytes_lt_256 ch b hbin) c hcin

/-- Composing fallible steps cannot produce an error neither step can. -/
theorem bind_ne_invalidAuth {α β : Type} {x : Except PyErr α} {f : α → Except PyErr β}
    (hx : x ≠ .error .invalidAuthError) (hf : ∀ a, f a ≠ .error .invalidAuthError) :
    x >>= f ≠ .error .invalidAuthError := by
  cases x with
  | error e => simpa [Bind.bind, Except.bind] using hx
  | ok a => simpa [Bind.bind, Except.bind] using hf a

/-- Returning a value is not an InvalidAuthError. -/
theorem pure_ne_invalidAuth {α : Type} (a : α) :
    (pure a : Except PyErr α) ≠ .error .invalidAuthError := by
  simp [pure, Except.pure]

/-- An awaited invocation surfaces only AttributeError or a propagated
TransportError, never InvalidAuthError. -/
theorem invoke_ne_invalidAuth (k : KodiClient) (r : Remote) (method : String)
    (params : List JValue) (kwargs : List (String × JValue)) :
    invoke k r method params kwargs ≠ .error .invalidAuthError := by
  unfold invoke
  cases k.server with
  | none => simp
  | some h =>
    cases hc : r.call { target := h, method := method, params := params, kwargs := kwargs } <;>
      simp [hc]

/-- A discarded-result invocation never raises InvalidAuthError. -/
theorem command_ne_invalidAuth (k : KodiClient) (r : Remote) (method : String)
    (params : List JValue) :
    command k r method params ≠ .error .invalidAuthError := by
  unfold command
  exact bind_ne_invalidAuth (invoke_ne_invalidAuth k r method params [])
    (fun a => pure_ne_invalidAuth a.2)

/-- Integer subscripting never raises InvalidAuthError. -/
theorem pyGetItemNat_ne_invalidAuth (v : JValue) (i : Nat) :
    pyGetItemNat v i ≠ .error .invalidAuthError := by
  unfold pyGetItemNat
  cases v <;> simp_all <;> split <;> simp

/-- String subscripting never raises InvalidAuthError. -/
theorem pyGetItemStr_ne_invalidAuth (v : JValue) (key : String) :
    pyGetItemStr v key ≠ .error .invalidAuthError := by
  unfold pyGetItemStr
  cases v <;> simp_all
  split <;> simp

/-- get_players never raises InvalidAuthError. -/
theorem get_players_ne_invalidAuth (k : KodiClient) (r : Remote) :
    Kodi.get_players k r ≠ .error .invalidAuthError :=
  invoke_ne_invalidAuth k r "Player.GetActivePlayers" [] []

/-- get_player_properties never raises InvalidAuthError. -/
theorem get_player_properties_ne_invalidAuth (k : KodiClient) (r : Remote)
    (player properties : JValue) :
    Kodi.get_player_properties k r player properties ≠ .error .invalidAuthError := by
  unfold Kodi.get_player_properties
  refine bind_ne_invalidAuth (pyGetItemStr_ne_invalidAuth _ _) ?_
  intro pid
  exact invoke_ne_invalidAuth _ _ _ _ _

/-- get_playing_item_properties never raises InvalidAuthError. -/
theorem get_playing_item_properties_ne_invalidAuth (k : KodiClient) (r : Remote)
    (player properties : JValue) :
    Kodi.get_playing_item_properties k r player properties ≠ .error .invalidAuthError := by
  unfold Kodi.get_playing_item_properties
  refine bind_ne_invalidAuth (pyGetItemStr_ne_invalidAuth _ _) ?_
  intro pid
  refine bind_ne_invalidAuth (invoke_ne_invalidAuth _ _ _ _ _) ?_
  rintro ⟨v, t⟩
  dsimp only
  refine bind_ne_invalidAuth (pyGetItemStr_ne_invalidAuth _ _) ?_
  intro item
  exact pure_ne_invalidAuth _

/-- _set_play_state never raises InvalidAuthError. -/
theorem set_play_state_ne_invalidAuth (k : KodiClient) (r : Remote) (st : JValue) :
    Kodi._set_play_state k r st ≠ .error .invalidAuthError := by
  unfold Kodi._set_play_state
  refine bind_ne_invalidAuth (get_players_ne_invalidAuth k r) ?_
  rintro ⟨players, t⟩
  dsimp only
  split
  · refine bind_ne_invalidAuth (pyGetItemNat_ne_invalidAuth _ _) ?_
    intro p0
    refine bind_ne_invalidAuth (pyGetItemStr_ne_invalidAuth _ _) ?_
    intro pid
    refine bind_ne_invalidAuth (invoke_ne_invalidAuth _ _ _ _ _) ?_
    rintro ⟨_, t2⟩
    exact pure_ne_invalidAuth _
  · exact pure_ne_invalidAuth _

/-- stop never raises InvalidAuthError. -/
theorem stop_ne_invalidAuth (k : KodiClient) (r : Remote) :
    Kodi.stop k r ≠ .error .invalidAuthError := by
  unfold Kodi.stop
  refine bind_ne_invalidAuth (get_players_ne_invalidAuth k r) ?_
  rintro ⟨players, t⟩
  dsimp only
  split
  · refine bind_ne_invalidAuth (pyGetItemNat_ne_invalidAuth _ _) ?_
    intro p0
    refine bind_ne_invalidAuth (pyGetItemStr_ne_invalidAuth _ _) ?_
    intro pid
    refine bind_ne_invalidAuth (invoke_ne_invalidAuth _ _ _ _ _) ?_
    rintro ⟨_, t2⟩
    exact pure_ne_invalidAuth _
  · exact pure_ne_invalidAuth _

/-- _goto never raises InvalidAuthError. -/
theorem goto_ne_invalidAuth (k : KodiClient) (r : Remote) (direction : String) :
    Kodi._goto k r direction ≠ .error .invalidAuthError := by
  unfold Kodi._goto
  refine bind_ne_invalidAuth (get_players_ne_invalidAuth k r) ?_
  rintro ⟨players, t⟩
  dsimp only
  split
  · refine bind_ne_invalidAuth (pyGetItemNat_ne_invalidAuth _ _) ?_
    intro p0
    refine bind_ne_invalidAuth (pyGetItemStr_ne_invalidAuth _ _) ?_
    intro pid
    dsimp only
    split
    · refine bind_ne_invalidAuth (invoke_ne_invalidAuth _ _ _ _ _) ?_
      rintro ⟨_, ts⟩
      refine bind_ne_invalidAuth (invoke_ne_invalidAuth _ _ _ _ _) ?_
      rintro ⟨_, tg⟩
      exact pure_ne_invalidAuth _
    · refine bind_ne_invalidAuth (invoke_ne_invalidAuth _ _ _ _ _) ?_
      rintro ⟨_, tg⟩
      exact pure_ne_invalidAuth _
  · exact pure_ne_invalidAuth _

/-- media_seek never raises InvalidAuthError. -/
theorem media_seek_ne_invalidAuth (k : KodiClient) (r : Remote) (position : ℚ) :
    Kodi.media_seek k r position ≠ .error .invalidAuthError := by
  unfold Kodi.media_seek
  refine bind_ne_invalidAuth (get_players_ne_invalidAuth k r) ?_
  rintro ⟨players, t⟩
  dsimp only
  split
  · refine bind_ne_invalidAuth (pyGetItemNat_ne_invalidAuth _ _) ?_
    intro p0
    refine bind_ne_invalidAuth (pyGetItemStr_ne_invalidAuth _ _) ?_
    intro pid
    refine bind_ne_invalidAuth (invoke_ne_invalidAuth _ _ _ _ _) ?_
    rintro ⟨_, t2⟩
    exact pure_ne_invalidAuth _
  · exact pure_ne_invalidAuth _

/-- set_shuffle never raises InvalidAuthError. -/
theorem set_shuffle_ne_invalidAuth (k : KodiClient) (r : Remote) (b : Bool) :
    Kodi.set_shuffle k r b ≠ .error .invalidAuthError := by
  unfold Kodi.set_shuffle
  refine bind_ne_invalidAuth (get_players_ne_invalidAuth k r) ?_
  rintro ⟨players, t⟩
  dsimp only
  split
  · refine bind_ne_invalidAuth (pyGetItemNat_ne_invalidAuth _ _) ?_
    intro p0
    refine bind_ne_invalidAuth (pyGetItemStr_ne_invalidAuth _ _) ?_
    intro pid
    refine bind_ne_invalidAuth (invoke_ne_invalidAuth _ _ _ _ _) ?_
    rintro ⟨_, t2⟩
    exact pure_ne_invalidAuth _
  · exact pure_ne_invalidAuth _

/-- _add_item_to_playlist never raises InvalidAuthError. -/
theorem add_item_ne_invalidAuth (k : KodiClient) (r : Remote) (item : JValue) :
    Kodi._add_item_to_playlist k r item ≠ .error .invalidAuthError := by
  unfold Kodi._add_item_to_playlist
  cases k.server <;> simp

/-- Session close counting distributes over concatenated traces. -/
theorem sessionCloses_append (s : SessionRef) (a b : List Effect) :
    sessionCloses s (a ++ b) = sessionCloses s a + sessionCloses s b := by
  simp [sessionCloses, List.filter_append]

/-- Closing the transport is not a session close. -/
theorem beq_closeWS_closeSession (sref : SessionRef) :
    (Effect.closeWS == Effect.closeSession sref) = false := rfl

/-- Once the created_session flag is down, close() never closes a session
and the flag stays down. -/
theorem close_not_created (c : KodiConn) (sref : SessionRef) (h : c.created = false) :
    sessionCloses sref (KodiConn.close c).effects = 0 ∧
      (KodiConn.close c).state.created = false := by
  cases c with
  | http s =>
    cases hs : s.base.session <;>
      simp_all [KodiConn.close, KodiHTTPConnection.close, KodiConnection.close,
        KodiConn.created, sessionCloses]
  | ws s =>
    cases hws : s.ws_server <;> cases hs : s.base.session <;>
      simp_all [KodiConn.close, KodiWSConnection.close, KodiConnection.close,
        KodiConn.created, sessionCloses, beq_closeWS_closeSession]

/-- Any number of close() calls on a connection whose created_session
flag is down closes no session at all. -/
theorem iter_no_session (n : Nat) (c : KodiConn) (h : c.created = false) (sref : SessionRef) :
    sessionCloses sref (iterClose n c).2 = 0 := by
  induction n generalizing c with
  | zero => simp [iterClose, sessionCloses]
  | succ m ih =>
    have hc := close_not_created c sref h
    simp only [iterClose, sessionCloses_append]
    rw [hc.1, ih _ hc.2]

/-- The first close() of a connection that created its own session closes
that session exactly once and lowers the flag. -/
theorem first_close_own (host : String) (port : Nat) (wsp : Option Nat)
    (user pass : Option String) (ssl : Bool) (tmo : Nat) :
    sessionCloses .created
        (KodiConn.close (get_kodi_connection host port wsp user pass ssl tmo none)).effects = 1 ∧
      (KodiConn.close (get_kodi_connection host port wsp user pass ssl tmo none)).state.created
        = false := by
  cases wsp <;>
    simp [get_kodi_connection, KodiConn.close, KodiHTTPConnection.close, KodiWSConnection.close,
      KodiHTTPConnection.init, KodiWSConnection.init, KodiConnection.init, KodiConnection.close,
      KodiConn.created, sessionCloses, beq_closeWS_closeSession] <;> decide

/-- A connection built over an externally supplied session never raises
its created_session flag. -/
theorem ext_not_created (host : String) (port : Nat) (wsp : Option Nat)
    (user pass : Option String) (ssl : Bool) (tmo : Nat) :
    (get_kodi_connection host port wsp user pass ssl tmo (some ())).created = false := by
  cases wsp <;> rfl

/-! ## Claims -/

/-- Comparing a JSON value with the literal pong succeeds exactly on the
string pong. -/
theorem beq_str_pong (v : JValue) : (JValue.beq v (.str "pong") = true) ↔ v = .str "pong" := by
  cases v <;> simp [JValue.beq]

/-- C1, counterexample: with zero active players, volume_up is not a
silent no-op: it still issues the state mutating remote call
Input.ExecuteAction volumeup (and never consults the player list). -/
theorem C1_counterexample :
    Kodi.volume_up demoClient emptyPlayersRemote
      = .ok [mkCall demoURL "Input.ExecuteAction" [.str "volumeup"]] ∧
    (mkCall demoURL "Input.ExecuteAction" [.str "volumeup"]).mutating = true := by
  constructor
  · rfl
  · decide

/-- C1, amended: when the active player list comes back empty, the player
targeted control operations (play, pause, play_pause, stop, next_track,
previous_track, media_seek, set_shuffle) complete without error and issue
only the Player.GetActivePlayers query, which mutates nothing; the volume
and mute operations do not consult the player list and always issue their
application level command, which is not a player mutating call. -/
theorem C1_amended_no_players
    (k : KodiClient) (r : Remote) (h : String)
    (hk : k.server = some h)
    (hr : ∀ c, r.call c = .ok (.arr [])) :
    Kodi.play_pause k r = .ok [mkCall h "Player.GetActivePlayers" []] ∧
    Kodi.play k r = .ok [mkCall h "Player.GetActivePlayers" []] ∧
    Kodi.pause k r = .ok [mkCall h "Player.GetActivePlayers" []] ∧
    Kodi.stop k r = .ok [mkCall h "Player.GetActivePlayers" []] ∧
    Kodi.next_track k r = .ok [mkCall h "Player.GetActivePlayers" []] ∧
    Kodi.previous_track k r = .ok [mkCall h "Player.GetActivePlayers" []] ∧
    (∀ position : ℚ, Kodi.media_seek k r position = .ok [mkCall h "Player.GetActivePlayers" []]) ∧
    (∀ b, Kodi.set_shuffle k r b = .ok [mkCall h "Player.GetActivePlayers" []]) ∧
    (mkCall h "Player.GetActivePlayers" []).mutating = false ∧
    Kodi.volume_up k r = .ok [mkCall h "Input.ExecuteAction" [.str "volumeup"]] ∧
    Kodi.volume_down k r = .ok [mkCall h "Input.ExecuteAction" [.str "volumedown"]] ∧
    (∀ v : Int, Kodi.set_volume_level k r v = .ok [mkCall h "Application.SetVolume" [.num v]]) ∧
    (∀ m : Bool, Kodi.mute k r m = .ok [mkCall h "Application.SetMute" [.bool m]]) ∧
    (∀ pl, (mkCall h "Input.ExecuteAction" pl).playerMutating = false) ∧
    (∀ pl, (mkCall h "Application.SetVolume" pl).playerMutating = false) ∧
    (∀ pl, (mkCall h "Application.SetMute" pl).playerMutating = false) := by
  refine ⟨?_, ?_, ?_, ?_, ?_, ?_, ?_, ?_, ?_, ?_, ?_, ?_, ?_, ?_, ?_, ?_⟩ <;>
    first
    | (intro x;
       simp [Kodi.play_pause, Kodi.play, Kodi.pause, Kodi._set_play_state, Kodi.stop,
         Kodi.next_track, Kodi.previous_track, Kodi._goto, Kodi.media_seek, Kodi.set_shuffle,
         Kodi.volume_up, Kodi.volume_down, Kodi.set_volume_level, Kodi.mute,
         Kodi.get_players, command, invoke, mkCall, hk, hr, JValue.truthy,
         RemoteCall.playerMutating, Bind.bind, Except.bind, Pure.pure, Except.pure])
    | simp [Kodi.play_pause, Kodi.play, Kodi.pause, Kodi._set_play_state, Kodi.stop,
        Kodi.next_track, Kodi.previous_track, Kodi._goto, Kodi.media_seek, Kodi.set_shuffle,
        Kodi.volume_up, Kodi.volume_down, Kodi.set_volume_level, Kodi.mute,
        Kodi.get_players, command, invoke, mkCall, hk, hr, JValue.truthy,
        RemoteCall.mutating, mutatingMethods, RemoteCall.playerMutating,
        Bind.bind, Except.bind, Pure.pure, Except.pure]

/-- C1, witness for the amended theorem at a concrete connection and a
remote whose active player list is empty. -/
theorem C1_amended_witness :
    Kodi.play demoClient emptyPlayersRemote = .ok [mkCall demoURL "Player.GetActivePlayers" []] ∧
    Kodi.media_seek demoClient emptyPlayersRemote (14901 / 4 : ℚ)
      = .ok [mkCall demoURL "Player.GetActivePlayers" []] ∧
    Kodi.mute demoClient emptyPlayersRemote true
      = .ok [mkCall demoURL "Application.SetMute" [.bool true]] := by
  have H := C1_amended_no_players demoClient emptyPlayersRemote demoURL rfl (fun _ => rfl)
  exact ⟨H.2.1, H.2.2.2.2.2.2.1 _, H.2.2.2.2.2.2.2.2.2.2.2.2.1 true⟩

/-- C2: on the WebSocket variant the second close() after the first one
cleared the transport reference is not a silent no-op: it raises
AttributeError from evaluating None.close(), performing no effect; the
HTTP variant does satisfy the claim (its second close is an error free
no-op). -/
theorem C2_ws_double_close_raises :
    (KodiConn.close demoWSConn).err = none ∧
    (KodiConn.close (KodiConn.close demoWSConn).state).err
      = some (.attributeError "close") ∧
    (KodiConn.close (KodiConn.close demoWSConn).state).effects = [] ∧
    (KodiConn.close (KodiConn.close demoWSConn).state).state
      = (KodiConn.close demoWSConn).state ∧
    (KodiConn.close demoConn).err = none ∧
    (KodiConn.close (KodiConn.close demoConn).state).err = none ∧
    (KodiConn.close (KodiConn.close demoConn).state).effects = [] ∧
    (KodiConn.close (KodiConn.close demoConn).state).state
      = (KodiConn.close demoConn).state := by
  refine ⟨rfl, rfl, rfl, ?_, rfl, rfl, rfl, ?_⟩ <;> decide

/-- C4: add_song_to_playlist and add_album_to_playlist build the
Playlist.Add coroutine but never await it, so no playlist remote call is
issued; clear_playlist does await Playlist.Clear with playlistid 0. -/
theorem C4_playlist_add_never_sent (song_id album_id : Int) :
    Kodi.add_song_to_playlist demoClient nullRemote song_id = .ok [] ∧
    Kodi.add_album_to_playlist demoClient nullRemote album_id = .ok [] ∧
    Kodi.clear_playlist demoClient nullRemote
      = .ok [mkCall demoURL "Playlist.Clear" [.obj [("playlistid", .num 0)]]] := by
  exact ⟨rfl, rfl, rfl⟩

/-- C5: the factory yields the WebSocket variant exactly when a websocket
port is supplied, and the HTTP variant exactly when it is absent; the
selection depends only on that presence. -/
theorem C5_factory_variant_selection (host : String) (port : Nat) (ws_port : Option Nat)
    (username password : Option String) (ssl : Bool) (timeout : Nat) (session : Option Unit) :
    (get_kodi_connection host port ws_port username password ssl timeout session).isWS
      = ws_port.isSome := by
  cases ws_port <;> rfl

/-- C3: ping returns true exactly when the reply is the literal pong; a
TransportError whose text contains 401 becomes InvalidAuthError, any
other TransportError becomes CannotConnectError; and no operation other
than ping ever produces InvalidAuthError. -/
theorem C3_ping_classification :
    (∀ (k : KodiClient) (r : Remote) (h : String), k.server = some h →
      (∀ v, r.call (mkCall h "JSONRPC.Ping" []) = .ok v →
        (Kodi.ping k r = .ok true ↔ v = .str "pong") ∧
        Kodi.ping k r = .ok (JValue.beq v (.str "pong"))) ∧
      (∀ m, r.call (mkCall h "JSONRPC.Ping" []) = .error m → strContains "401" m = true →
        Kodi.ping k r = .error .invalidAuthError) ∧
      (∀ m, r.call (mkCall h "JSONRPC.Ping" []) = .error m → strContains "401" m = false →
        Kodi.ping k r = .error .cannotConnectError)) ∧
    (∀ k r properties,
      Kodi.get_application_properties k r properties ≠ .error .invalidAuthError) ∧
    (∀ k r player properties,
      Kodi.get_player_properties k r player properties ≠ .error .invalidAuthError) ∧
    (∀ k r player properties,
      Kodi.get_playing_item_properties k r player properties ≠ .error .invalidAuthError) ∧
    (∀ k r, Kodi.volume_up k r ≠ .error .invalidAuthError) ∧
    (∀ k r, Kodi.volume_down k r ≠ .error .invalidAuthError) ∧
    (∀ k r volume, Kodi.set_volume_level k r volume ≠ .error .invalidAuthError) ∧
    (∀ k r m, Kodi.mute k r m ≠ .error .invalidAuthError) ∧
    (∀ k r, Kodi.play_pause k r ≠ .error .invalidAuthError) ∧
    (∀ k r, Kodi.play k r ≠ .error .invalidAuthError) ∧
    (∀ k r, Kodi.pause k r ≠ .error .invalidAuthError) ∧
    (∀ k r, Kodi.stop k r ≠ .error .invalidAuthError) ∧
    (∀ k r, Kodi.next_track k r ≠ .error .invalidAuthError) ∧
    (∀ k r, Kodi.previous_track k r ≠ .error .invalidAuthError) ∧
    (∀ k r position, Kodi.media_seek k r position ≠ .error .invalidAuthError) ∧
    (∀ k r cid, Kodi.play_channel k r cid ≠ .error .invalidAuthError) ∧
    (∀ k r pid, Kodi.play_playlist k r pid ≠ .error .invalidAuthError) ∧
    (∀ k r d, Kodi.play_directory k r d ≠ .error .invalidAuthError) ∧
    (∀ k r f, Kodi.play_file k r f ≠ .error .invalidAuthError) ∧
    (∀ k r b, Kodi.set_shuffle k r b ≠ .error .invalidAuthError) ∧
    (∀ k r method kwargs, Kodi.call_method k r method kwargs ≠ .error .invalidAuthError) ∧
    (∀ k r sid, Kodi.add_song_to_playlist k r sid ≠ .error .invalidAuthError) ∧
    (∀ k r aid, Kodi.add_album_to_playlist k r aid ≠ .error .invalidAuthError) ∧
    (∀ k r, Kodi.clear_playlist k r ≠ .error .invalidAuthError) ∧
    (∀ k r, Kodi.get_artists k r ≠ .error .invalidAuthError) ∧
    (∀ k r aid, Kodi.get_albums k r aid ≠ .error .invalidAuthError) ∧
    (∀ k r aid, Kodi.get_songs k r aid ≠ .error .invalidAuthError) ∧
    (∀ k r, Kodi.get_players k r ≠ .error .invalidAuthError) ∧
    (∀ k r title message icon dt,
      Kodi.send_notification k r title message icon dt ≠ .error .invalidAuthError) := by
  refine ⟨?_, ?_, ?_, ?_, ?_, ?_, ?_, ?_, ?_, ?_, ?_, ?_, ?_, ?_, ?_, ?_, ?_, ?_, ?_,
    ?_, ?_, ?_, ?_, ?_, ?_, ?_, ?_, ?_, ?_⟩
  · intro k r h hk
    simp only [mkCall]
    refine ⟨?_, ?_, ?_⟩
    · intro v hv
      constructor
      · simp [Kodi.ping, hk, hv, beq_str_pong]
      · simp [Kodi.ping, hk, hv]
    · intro m hm hcont
      simp [Kodi.ping, hk, hm, hcont]
    · intro m hm hcont
      simp [Kodi.ping, hk, hm, hcont]
  · exact fun k r p => invoke_ne_invalidAuth k r "Application.GetProperties" [p] []
  · exact fun k r p q => get_player_properties_ne_invalidAuth k r p q
  · exact fun k r p q => get_playing_item_properties_ne_invalidAuth k r p q
  · exact fun k r => command_ne_invalidAuth k r "Input.ExecuteAction" [.str "volumeup"]
  · exact fun k r => command_ne_invalidAuth k r "Input.ExecuteAction" [.str "volumedown"]
  · exact fun k r v => command_ne_invalidAuth k r "Application.SetVolume" [.num v]
  · exact fun k r m => command_ne_invalidAuth k r "Application.SetMute" [.bool m]
  · exact fun k r => set_play_state_ne_invalidAuth k r (.str "toggle")
  · exact fun k r => set_play_state_ne_invalidAuth k r (.bool true)
  · exact fun k r => set_play_state_ne_invalidAuth k r (.bool false)
  · exact fun k r => stop_ne_invalidAuth k r
  · exact fun k r => goto_ne_invalidAuth k r "next"
  · exact fun k r => goto_ne_invalidAuth k r "previous"
  · exact fun k r position => media_seek_ne_invalidAuth k r position
  · exact fun k r cid =>
      command_ne_invalidAuth k r "Player.Open" [.obj [("item", .obj [("channelid", .num cid)])]]
  · exact fun k r pid =>
      command_ne_invalidAuth k r "Player.Open" [.obj [("item", .obj [("playlistid", .num pid)])]]
  · exact fun k r d =>
      command_ne_invalidAuth k r "Player.Open" [.obj [("item", .obj [("directory", .str d)])]]
  · exact fun k r f =>
      command_ne_invalidAuth k r "Player.Open" [.obj [("item", .obj [("file", .str f)])]]
  · exact fun k r b => set_shuffle_ne_invalidAuth k r b
  · exact fun k r method kwargs => invoke_ne_invalidAuth k r method [] kwargs
  · exact fun k r sid => add_item_ne_invalidAuth k r (.obj [("songid", .num sid)])
  · exact fun k r aid => add_item_ne_invalidAuth k r (.obj [("albumid", .num aid)])
  · exact fun k r =>
      command_ne_invalidAuth k r "Playlist.Clear" [.obj [("playlistid", .num 0)]]
  · exact fun k r => invoke_ne_invalidAuth k r "AudioLibrary.GetArtists" [] []
  · intro k r aid
    cases aid with
    | none => exact invoke_ne_invalidAuth k r "AudioLibrary.GetAlbums" [] []
    | some a =>
      exact invoke_ne_invalidAuth k r "AudioLibrary.GetAlbums"
        [.obj [("filter", .obj [("artistid", .num a)])]] []
  · intro k r aid
    cases aid with
    | none => exact invoke_ne_invalidAuth k r "AudioLibrary.GetSongs" [] []
    | some a =>
      exact invoke_ne_invalidAuth k r "AudioLibrary.GetSongs"
        [.obj [("filter", .obj [("artistid", .num a)])]] []
  · exact fun k r => get_players_ne_invalidAuth k r
  · exact fun k r title message icon dt =>
      command_ne_invalidAuth k r "GUI.ShowNotification"
        [.str title, .str message, .str icon, .num dt]

/-- C3, witness: a concrete client where the three ping outcomes and one
non-ping operation are evaluated. -/
theorem C3_ping_classification_witness :
    Kodi.ping demoClient pongRemote = .ok true ∧
    Kodi.ping demoClient deniedRemote = .error .invalidAuthError ∧
    Kodi.ping demoClient downRemote = .error .cannotConnectError ∧
    Kodi.get_artists demoClient deniedRemote ≠ .error .invalidAuthError := by
  have H := C3_ping_classification
  have h1 := (H.1 demoClient pongRemote demoURL rfl).1 (.str "pong") rfl
  have h2 := (H.1 demoClient deniedRemote demoURL rfl).2.1 "HTTP/1.1 401 Unauthorized" rfl
      (by decide)
  have h3 := (H.1 demoClient downRemote demoURL rfl).2.2 "Cannot connect to host" rfl
      (by decide)
  exact ⟨h1.1.mpr rfl, h2, h3, H.2.2.2.2.2.2.2.2.2.2.2.2.2.2.2.2.2.2.2.2.2.2.2.2.1
    demoClient deniedRemote⟩

set_option maxRecDepth 10000 in
/-- The worked percent-encoding example of the specification. -/
theorem quote_plus_example : quote_plus "image://foo%20bar/" = "image%3A%2F%2Ffoo%2520bar%2F" := by
  decide

/-- The worked scheme extraction example. -/
theorem urlScheme_example : urlScheme "image://foo%20bar/" = "image" := by decide

/-- C6: thumbnail_url maps None to None; a reference with the sentinel
scheme image is rewritten to the image base URL, a slash and the whole
reference percent-encoded (escaping every reserved character, slash and
colon included); any other scheme yields None. -/
theorem C6_thumbnail_url_spec (b : BaseState) :
    KodiConnection.thumbnail_url b none = none ∧
    KodiConnection.thumbnail_url b (some "image://foo%20bar/")
      = some (b.image_url ++ "/" ++ "image%3A%2F%2Ffoo%2520bar%2F") ∧
    (∀ t, urlScheme t ≠ "image" → KodiConnection.thumbnail_url b (some t) = none) ∧
    (∀ t, urlScheme t = "image" →
      KodiConnection.thumbnail_url b (some t) = some (b.image_url ++ "/" ++ quote_plus t)) ∧
    (∀ t, ∀ c ∈ (quote_plus t).data, c.isAlphanum ∨ c ∈ ['_', '.', '-', '~', '%', '+']) := by
  refine ⟨rfl, ?_, ?_, ?_, fun t => quote_plus_safe t⟩
  · show (if urlScheme "image://foo%20bar/" == "image" then
        some (b.image_url ++ "/" ++ quote_plus "image://foo%20bar/") else none) = _
    rw [quote_plus_example, urlScheme_example]
    rfl
  · intro t ht
    simp [KodiConnection.thumbnail_url, beq_iff_eq, ht]
  · intro t ht
    simp [KodiConnection.thumbnail_url, beq_iff_eq, ht]

/-- C6, witness: concrete connection, concrete references. -/
theorem C6_thumbnail_url_witness :
    KodiConnection.thumbnail_url (KodiConnection.init "host" 8080 none none false 5 none)
      (some "http://example.com/x.jpg") = none ∧
    KodiConnection.thumbnail_url (KodiConnection.init "host" 8080 none none false 5 none)
      (some "image://foo%20bar/")
      = some "http://host:8080/image/image%3A%2F%2Ffoo%2520bar%2F" := by
  have H := C6_thumbnail_url_spec (KodiConnection.init "host" 8080 none none false 5 none)
  exact ⟨H.2.2.1 "http://example.com/x.jpg" (by decide), H.2.1.trans (by decide)⟩

/-- C7: a fresh WebSocket connection is not connected; a successful
connect performs one handshake and turns connected on; connect on an
already connected state is a no-op returning success without a second
handshake; a failed handshake raises CannotConnectError, leaving the
state unchanged and disconnected. -/
theorem C7_ws_connect_lifecycle (host : String) (port wp : Nat)
    (user pass : Option String) (ssl : Bool) (tmo : Nat) (sess : Option Unit) (m : String) :
    KodiWSConnection.connected (KodiWSConnection.init host port wp user pass ssl tmo sess)
      = false ∧
    (KodiWSConnection.connect .success (KodiWSConnection.init host port wp user pass ssl tmo sess)).err
      = none ∧
    KodiWSConnection.connected
        (KodiWSConnection.connect .success (KodiWSConnection.init host port wp user pass ssl tmo sess)).state
      = true ∧
    (KodiWSConnection.connect .success (KodiWSConnection.init host port wp user pass ssl tmo sess)).effects
      = [.wsHandshake] ∧
    (∀ (s : WSState) (o : HandshakeOutcome), KodiWSConnection.connected s = true →
      KodiWSConnection.connect o s = { state := s, effects := [], err := none }) ∧
    (KodiWSConnection.connect (.failure m) (KodiWSConnection.init host port wp user pass ssl tmo sess)).err
      = some .cannotConnectError ∧
    (KodiWSConnection.connect (.failure m) (KodiWSConnection.init host port wp user pass ssl tmo sess)).state
      = KodiWSConnection.init host port wp user pass ssl tmo sess ∧
    KodiWSConnection.connected
        (KodiWSConnection.connect (.failure m) (KodiWSConnection.init host port wp user pass ssl tmo sess)).state
      = false ∧
    KodiWSConnection.connect .success
        (KodiWSConnection.connect .success (KodiWSConnection.init host port wp user pass ssl tmo sess)).state
      = { state := (KodiWSConnection.connect .success (KodiWSConnection.init host port wp user pass ssl tmo sess)).state
          effects := [], err := none } := by
  refine ⟨rfl, rfl, rfl, rfl, ?_, rfl, rfl, rfl, rfl⟩
  intro s o hs
  simp [KodiWSConnection.connect, hs]

/-- C7, witness: a concrete double connect where the second call is a
handshake free no-op. -/
theorem C7_ws_connect_lifecycle_witness :
    KodiWSConnection.connected
        (KodiWSConnection.connect .success
          (KodiWSConnection.init "host" 8080 9090 none none false 5 none)).state = true ∧
    KodiWSConnection.connect .success
        (KodiWSConnection.connect .success
          (KodiWSConnection.init "host" 8080 9090 none none false 5 none)).state
      = { state := (KodiWSConnection.connect .success
            (KodiWSConnection.init "host" 8080 9090 none none false 5 none)).state
          effects := [], err := none } := by
  have H := C7_ws_connect_lifecycle "host" 8080 9090 none none false 5 none "x"
  exact ⟨H.2.2.1, H.2.2.2.2.1 _ .success H.2.2.1⟩

/-- C8: over any number of close() calls, a connection built on an
externally supplied session never closes any session, while a connection
that created its own session closes it exactly once as soon as close()
is called at least once (min n 1 session closes over n calls). -/
theorem C8_session_ownership (host : String) (port : Nat) (wsp : Option Nat)
    (user pass : Option String) (ssl : Bool) (tmo n : Nat) :
    sessionCloses .external
        (iterClose n (get_kodi_connection host port wsp user pass ssl tmo (some ()))).2 = 0 ∧
    sessionCloses .created
        (iterClose n (get_kodi_connection host port wsp user pass ssl tmo (some ()))).2 = 0 ∧
    sessionCloses .created
        (iterClose n (get_kodi_connection host port wsp user pass ssl tmo none)).2 = min n 1 := by
  refine ⟨iter_no_session n _ (ext_not_created host port wsp user pass ssl tmo) .external,
    iter_no_session n _ (ext_not_created host port wsp user pass ssl tmo) .created, ?_⟩
  cases n with
  | zero => simp [iterClose, sessionCloses]
  | succ k =>
    have h1 := first_close_own host port wsp user pass ssl tmo
    simp only [iterClose, sessionCloses_append]
    rw [h1.1, iter_no_session k _ h1.2]
    omega

/-- C9: media_seek decomposes the position 3725.250 seconds into
hours 1, minutes 2, seconds 5, milliseconds 250 by the successive
division and remainder chain of the source, and, with an active player,
forwards the structured time object through Player.Seek. -/
theorem C9_media_seek_decomposition :
    media_seek_time (14901 / 4 : ℚ)
      = .obj [("milliseconds", .num 250), ("seconds", .num 5),
              ("minutes", .num 2), ("hours", .num 1)] ∧
    ∀ (k : KodiClient) (r : Remote) (h : String) (pid : Int) (rest : List JValue) (v : JValue)
      (position : ℚ),
      k.server = some h →
      r.call (mkCall h "Player.GetActivePlayers" [])
        = .ok (.arr (.obj [("playerid", .num pid)] :: rest)) →
      r.call (mkCall h "Player.Seek" [.num pid, media_seek_time position]) = .ok v →
      Kodi.media_seek k r position
        = .ok [mkCall h "Player.GetActivePlayers" [],
               mkCall h "Player.Seek" [.num pid, media_seek_time position]] := by
  constructor
  · with_unfolding_all rfl
  · intro k r h pid rest v position hk h1 h2
    simp only [mkCall] at h1 h2
    simp [Kodi.media_seek, Kodi.get_players, invoke, mkCall, hk, h1, h2, JValue.truthy,
          pyGetItemNat, pyGetItemStr, Bind.bind, Except.bind, Pure.pure, Except.pure,
          List.lookup]

/-- C9, witness: the decomposition forwarded on a concrete remote with
one active player. -/
theorem C9_media_seek_witness :
    Kodi.media_seek demoClient seekDemoRemote (14901 / 4 : ℚ)
      = .ok [mkCall demoURL "Player.GetActivePlayers" [],
             mkCall demoURL "Player.Seek"
               [.num 1, .obj [("milliseconds", .num 250), ("seconds", .num 5),
                              ("minutes", .num 2), ("hours", .num 1)]]] := by
  have H := C9_media_seek_decomposition
  have hgp : seekDemoRemote.call (mkCall demoURL "Player.GetActivePlayers" [])
      = .ok (.arr (.obj [("playerid", .num 1)] :: [])) := rfl
  have hseek : seekDemoRemote.call
      (mkCall demoURL "Player.Seek" [.num 1, media_seek_time (14901 / 4 : ℚ)]) = .ok .null := rfl
  have h2 := H.2 demoClient seekDemoRemote demoURL 1 [] .null (14901 / 4 : ℚ) rfl hgp hseek
  rw [H.1] at h2
  exact h2

/-- C10: Kodi.__init__ reads connection.server once; close() clears the
server property of the connection, yet a client built before the close
still dispatches through the captured handle, while a client built from
the closed connection has none and fails with AttributeError; only
thumbnail_url is re-delegated to the live connection state on each call. -/
theorem C10_captured_dispatch_handle (host : String) (port wp : Nat)
    (user pass : Option String) (ssl : Bool) (tmo : Nat) (sess : Option Unit)
    (t : Option String) :
    (Kodi.init (get_kodi_connection host port none user pass ssl tmo sess)).server
      = (get_kodi_connection host port none user pass ssl tmo sess).server ∧
    (Kodi.init (get_kodi_connection host port (some wp) user pass ssl tmo sess)).server
      = (get_kodi_connection host port (some wp) user pass ssl tmo sess).server ∧
    (get_kodi_connection host port none user pass ssl tmo sess).server
      = some ((if ssl then "https" else "http") ++ "://" ++ host ++ ":" ++ toString port
          ++ "/jsonrpc") ∧
    (get_kodi_connection host port (some wp) user pass ssl tmo sess).server
      = some ((if ssl then "wss" else "ws") ++ "://" ++ host ++ ":" ++ toString wp
          ++ "/jsonrpc") ∧
    (KodiConn.close (get_kodi_connection host port none user pass ssl tmo sess)).state.server
      = none ∧
    (KodiConn.close (get_kodi_connection host port (some wp) user pass ssl tmo sess)).state.server
      = none ∧
    Kodi.volume_up (Kodi.init (get_kodi_connection host port (some wp) user pass ssl tmo sess))
        nullRemote
      = .ok [mkCall ((if ssl then "wss" else "ws") ++ "://" ++ host ++ ":" ++ toString wp
          ++ "/jsonrpc") "Input.ExecuteAction" [.str "volumeup"]] ∧
    Kodi.volume_up
        (Kodi.init
          (KodiConn.close (get_kodi_connection host port (some wp) user pass ssl tmo sess)).state)
        nullRemote
      = .error (.attributeError "Input.ExecuteAction") ∧
    Kodi.thumbnail_url
        (KodiConn.close (get_kodi_connection host port (some wp) user pass ssl tmo sess)).state t
      = KodiConn.thumbnail_url
        (KodiConn.close (get_kodi_connection host port (some wp) user pass ssl tmo sess)).state t := by
  exact ⟨rfl, rfl, rfl, rfl, rfl, rfl, rfl, rfl, rfl⟩

end PyKodi
